import Mathlib

/-!
A verification development for the core of the redisraft module, as declared
in redisraft.h and described by its specification.  C structures and enums are
embedded shallowly: byte strings become lists of natural numbers, fixed-size
character arrays become lists with a length invariant, and C enums become Lean
inductives together with the numeric values the C compiler assigns.
-/

namespace RedisRaft

/-- A byte value (a C char); byte strings are modelled as lists of bytes. -/
abbrev Byte := Nat

/-! ### Node addresses (redisraft.h, struct node_addr) -/

/-- Size of the host buffer in struct node_addr: char host[256]. -/
def NODE_ADDR_HOST_BUFSIZE : Nat := 256

/-- Node address specifier (redisraft.h, struct node_addr): a port and a
hostname stored in a 256-byte buffer.  The host field models the bytes of the
stored string before its NUL terminator. -/
structure NodeAddr where
  port : Nat
  host : List Byte
deriving DecidableEq, Repr

/-! ### Node connection states (redisraft.h, enum NodeState / NodeFlags) -/

/-- Connection state of a peer (redisraft.h, enum NodeState). -/
inductive NodeState where
  | NODE_DISCONNECTED
  | NODE_RESOLVING
  | NODE_CONNECTING
  | NODE_CONNECTED
  | NODE_CONNECT_ERROR
deriving DecidableEq, Repr, Fintype

/-- NODE_TERMINATING = 1 << 0 (redisraft.h, enum NodeFlags). -/
def NODE_TERMINATING : Nat := 1

/-- The NODE_STATE_IDLE macro from redisraft.h:
\(x\) == NODE_DISCONNECTED || \(x\) == NODE_CONNECT_ERROR. -/
def NODE_STATE_IDLE (x : NodeState) : Bool :=
  x == NodeState.NODE_DISCONNECTED || x == NodeState.NODE_CONNECT_ERROR

/-- A peer node (redisraft.h, struct Node), restricted to the fields the
connection manager consults: id, connection state and flag bitmask. -/
structure Node where
  id : Nat
  state : NodeState
  flags : Nat
deriving DecidableEq, Repr

/-- A node is terminating when the NODE_TERMINATING bit is set in its flags. -/
def nodeTerminating (n : Node) : Bool :=
  n.flags &&& NODE_TERMINATING != 0

/-- Modelled from the spec: the body of HandleNodeStates (node.c) is not among
the sources, only its declaration in redisraft.h.  Per the spec, on each
firing of the reconnect timer, "for each peer in {Disconnected, ConnectError}
that is not terminating, attempt to resolve and reconnect".  A reconnect is
attempted for exactly the idle, non-terminating peers. -/
def shouldReconnect (n : Node) : Bool :=
  !nodeTerminating n && NODE_STATE_IDLE n.state

/-- Modelled from the spec: HandleNodeStates walks the peer list and attempts
a reconnect (resolve then connect) for each idle, non-terminating peer; it is
modelled as returning the peers for which a reconnect is attempted. -/
def HandleNodeStates (nodes : List Node) : List Node :=
  nodes.filter shouldReconnect

/-! ### Configuration (redisraft.h, RedisRaftConfig and default macros) -/

def REDIS_RAFT_DEFAULT_INTERVAL : Nat := 100

def REDIS_RAFT_DEFAULT_REQUEST_TIMEOUT : Nat := 250

def REDIS_RAFT_DEFAULT_ELECTION_TIMEOUT : Nat := 500

def REDIS_RAFT_DEFAULT_RECONNECT_INTERVAL : Nat := 100

def REDIS_RAFT_DEFAULT_MAX_LOG_ENTRIES : Nat := 10000

/-- User provided configuration (redisraft.h, struct RedisRaftConfig).  The
rdb and raft log file names are byte strings; an unset local address is
modelled as none. -/
structure RedisRaftConfig where
  id : Nat
  addr : Option NodeAddr
  rdb_filename : Option (List Byte)
  raftlog : Option (List Byte)
  raft_interval : Nat
  request_timeout : Nat
  election_timeout : Nat
  reconnect_interval : Nat
  max_log_entries : Nat
  compact_delay : Nat
deriving DecidableEq, Repr

/-- Modelled from the spec: ConfigInit (config.c) is declared in redisraft.h
but its body is not among the sources.  Per the spec, when the user does not
override an option, each tuning option takes its REDIS_RAFT_DEFAULT_* value
from redisraft.h. -/
def ConfigInit : RedisRaftConfig :=
  { id := 0
    addr := none
    rdb_filename := none
    raftlog := none
    raft_interval := REDIS_RAFT_DEFAULT_INTERVAL
    request_timeout := REDIS_RAFT_DEFAULT_REQUEST_TIMEOUT
    election_timeout := REDIS_RAFT_DEFAULT_ELECTION_TIMEOUT
    reconnect_interval := REDIS_RAFT_DEFAULT_RECONNECT_INTERVAL
    max_log_entries := REDIS_RAFT_DEFAULT_MAX_LOG_ENTRIES
    compact_delay := 0 }

/-! ### Status codes and request types (redisraft.h, RRStatus / RaftReqType / RaftReq) -/

/-- General purpose status code (redisraft.h, enum RRStatus). -/
inductive RRStatus where
  | RR_OK
  | RR_ERROR
deriving DecidableEq, Repr

/-- Request types (redisraft.h, enum RaftReqType).  RR_CLUSTER_INIT = 1 and
the C compiler assigns consecutive values to the rest. -/
inductive RaftReqType where
  | RR_CLUSTER_INIT
  | RR_CLUSTER_JOIN
  | RR_CFGCHANGE_ADDNODE
  | RR_CFGCHANGE_REMOVENODE
  | RR_APPENDENTRIES
  | RR_REQUESTVOTE
  | RR_REDISCOMMAND
  | RR_INFO
  | RR_LOADSNAPSHOT
  | RR_COMPACT
deriving DecidableEq, Repr, Fintype

/-- The numeric value the C compiler assigns each RaftReqType tag
(RR_CLUSTER_INIT = 1, consecutive afterwards). -/
def RaftReqType.toNat : RaftReqType → Nat
  | .RR_CLUSTER_INIT => 1
  | .RR_CLUSTER_JOIN => 2
  | .RR_CFGCHANGE_ADDNODE => 3
  | .RR_CFGCHANGE_REMOVENODE => 4
  | .RR_APPENDENTRIES => 5
  | .RR_REQUESTVOTE => 6
  | .RR_REDISCOMMAND => 7
  | .RR_INFO => 8
  | .RR_LOADSNAPSHOT => 9
  | .RR_COMPACT => 10

/-- Membership change payload (redisraft.h, struct RaftCfgChange). -/
structure RaftCfgChange where
  id : Nat
  addr : NodeAddr
deriving DecidableEq, Repr

/-- An AppendEntries RPC message of the external raft library (raft.h,
msg_appendentries_t); opaque to this module, modelled as raw bytes. -/
structure MsgAppendEntries where
  raw : List Byte
deriving DecidableEq, Repr

/-- A RequestVote RPC message of the external raft library (raft.h,
msg_requestvote_t); opaque to this module, modelled as raw bytes. -/
structure MsgRequestVote where
  raw : List Byte
deriving DecidableEq, Repr

/-- A client command (redisraft.h, struct RaftRedisCommand): an argc count
and an argv array of byte strings. -/
structure RaftRedisCommand where
  argc : Nat
  argv : List (List Byte)
deriving DecidableEq, Repr

/-- The union member of struct RaftReq (redisraft.h): the payload a request
of each type carries.  RR_CLUSTER_INIT, RR_INFO and RR_COMPACT carry no
payload. -/
inductive RaftReqData where
  | cluster_init
  | cluster_join (addr : List NodeAddr)
  | cfgchange_addnode (cfgchange : RaftCfgChange)
  | cfgchange_removenode (cfgchange : RaftCfgChange)
  | appendentries (src_node_id : Nat) (msg : MsgAppendEntries)
  | requestvote (src_node_id : Nat) (msg : MsgRequestVote)
  | rediscommand (cmd : RaftRedisCommand)
  | info
  | loadsnapshot (term : Nat) (idx : Nat) (snapshot : List Byte)
  | compact
deriving DecidableEq, Repr

/-- The RaftReqType tag a payload belongs to (the `type` field of RaftReq
set by RaftReqInit). -/
def RaftReqData.rtype : RaftReqData → RaftReqType
  | .cluster_init => .RR_CLUSTER_INIT
  | .cluster_join _ => .RR_CLUSTER_JOIN
  | .cfgchange_addnode _ => .RR_CFGCHANGE_ADDNODE
  | .cfgchange_removenode _ => .RR_CFGCHANGE_REMOVENODE
  | .appendentries _ _ => .RR_APPENDENTRIES
  | .requestvote _ _ => .RR_REQUESTVOTE
  | .rediscommand _ => .RR_REDISCOMMAND
  | .info => .RR_INFO
  | .loadsnapshot _ _ _ => .RR_LOADSNAPSHOT
  | .compact => .RR_COMPACT

/-- A queued request (redisraft.h, struct RaftReq): its tagged payload and
the optional RedisModuleBlockedClient handle (a NULL-able pointer, modelled
as an Option over an abstract handle) to reply to on completion. -/
structure RaftReq where
  client : Option Nat
  data : RaftReqData
deriving DecidableEq, Repr

/-! ### dbid and the persistent log (redisraft.h, RAFT_DBID_LEN / RaftLog) -/

/-- RAFT_DBID_LEN = 32 (redisraft.h): length of the cluster identifier. -/
def RAFT_DBID_LEN : Nat := 32

/-- Size of the dbid buffers: char dbid[RAFT_DBID_LEN+1] in both
RaftSnapshotInfo and RaftLog. -/
def DBID_BUFSIZE : Nat := RAFT_DBID_LEN + 1

/-- Modelled from the spec: every operation that sets a dbid field
(initialization, RaftLogCreate, snapshot load) copies the 32-character
cluster identifier into the char[RAFT_DBID_LEN+1] buffer and NUL-terminates
it.  The stored buffer contents are the copied characters followed by the
terminator. -/
def storeDbid (id : List Byte) : List Byte :=
  id.take RAFT_DBID_LEN ++ [0]

/-- A node configuration entry captured at snapshot time (redisraft.h,
struct SnapshotCfgEntry). -/
structure SnapshotCfgEntry where
  id : Nat
  active : Bool
  voting : Bool
  addr : NodeAddr
deriving DecidableEq, Repr

/-- Snapshot metadata (redisraft.h, struct RaftSnapshotInfo).  The dbid
field models the bytes stored in the char[RAFT_DBID_LEN+1] buffer. -/
structure RaftSnapshotInfo where
  loaded : Bool
  dbid : List Byte
  last_applied_term : Nat
  last_applied_idx : Nat
  cfg : List SnapshotCfgEntry
deriving DecidableEq, Repr

/-- The in-memory raft log handle (redisraft.h, struct RaftLog).  The vote
is -1 when none was cast. -/
structure RaftLog where
  version : Nat
  dbid : List Byte
  num_entries : Nat
  snapshot_last_term : Nat
  snapshot_last_idx : Nat
  vote : Int
  term : Nat
  index : Nat
deriving DecidableEq, Repr

/-- RAFTLOG_VERSION = 1 (redisraft.h). -/
def RAFTLOG_VERSION : Nat := 1

/-- Modelled from the spec: RaftLogCreate (log.c) is declared in redisraft.h
but its body is not among the sources.  Per the spec, Create writes a header
with snapshot_last_term and snapshot_last_idx set from its arguments, the
given dbid, and zero entries; the in-memory last index starts at the
snapshot boundary. -/
def RaftLogCreate (dbid : List Byte) (term idx : Nat) : RaftLog :=
  { version := RAFTLOG_VERSION
    dbid := storeDbid dbid
    num_entries := 0
    snapshot_last_term := term
    snapshot_last_idx := idx
    vote := -1
    term := term
    index := idx }

/-- Modelled from the spec: during snapshot load the dbid of the snapshot
info record is set from the delivered 32-character identifier. -/
def RaftSnapshotInfo.setDbid (si : RaftSnapshotInfo) (id : List Byte) : RaftSnapshotInfo :=
  { si with dbid := storeDbid id }

/-! ### Log file recovery (log.c interface declared in redisraft.h) -/

/-- An entry record of the on-disk log (spec: length-prefixed entries
\x28term, index, type, payload_len, payload\x29 after the header). -/
structure RaftLogEntryRecord where
  term : Nat
  etype : Nat
  payload : List Byte
deriving DecidableEq, Repr

/-- The on-disk log file (spec: header {version, dbid, snapshot_last_term,
snapshot_last_idx}, then complete entries; a trailing partial entry may be
present after a crash and is discarded on open). -/
structure RaftLogFile where
  version : Nat
  dbid : List Byte
  snapshot_last_term : Nat
  snapshot_last_idx : Nat
  entries : List RaftLogEntryRecord
  partial_tail : Bool
deriving DecidableEq, Repr

/-- Modelled from the spec: RaftLogOpen (log.c) is declared in redisraft.h
but its body is not among the sources.  Per the spec, Open parses the
header, streams the complete entries (a truncated trailing entry is
discarded), and returns a handle with num_entries populated; reading starts
at the header's snapshot boundary and every streamed entry increments
num_entries and advances the in-memory last index by one.  logCountEntry is
that per-entry step; RaftLogOpen folds it over the streamed entries starting
from the parsed header. -/
def logCountEntry (log : RaftLog) (_e : RaftLogEntryRecord) : RaftLog :=
  { log with num_entries := log.num_entries + 1, index := log.index + 1 }

/-- Modelled from the spec: the handle RaftLogOpen (log.c) returns after
recovery; see logCountEntry. -/
def RaftLogOpen (f : RaftLogFile) : RaftLog :=
  f.entries.foldl logCountEntry
    { version := f.version
      dbid := f.dbid
      num_entries := 0
      snapshot_last_term := f.snapshot_last_term
      snapshot_last_idx := f.snapshot_last_idx
      vote := -1
      term := f.snapshot_last_term
      index := f.snapshot_last_idx }

/-! ### The persistence path and PANIC (redisraft.h PANIC macro) -/

/-- The diagnostic banner the PANIC macro prints (redisraft.h). -/
def RAFT_PANIC_BANNER : String := "REDIS RAFT PANIC"

/-- Outcome of a step of the persistence path: either the node continues
with an updated log, or it has terminated the process. -/
inductive PersistOutcome where
  | ok (log : RaftLog)
  | panicked (banner : String) (code : Nat)
deriving DecidableEq, Repr

/-- The PANIC macro from redisraft.h: print the diagnostic banner and call
exit(1).  The process never continues past it. -/
def PANIC : PersistOutcome :=
  .panicked RAFT_PANIC_BANNER 1

/-- Modelled from the spec: RaftLogAppend (log.c) writes the entry,
increments num_entries and advances the in-memory last index; it returns
false when the underlying write fails.  The I/O outcome of the write is an
explicit argument of the model. -/
def RaftLogAppend (log : RaftLog) (_e : RaftLogEntryRecord) (write_ok : Bool) :
    Option RaftLog :=
  if write_ok then
    some { log with num_entries := log.num_entries + 1, index := log.index + 1 }
  else none

/-- Modelled from the spec: RaftLogSync (log.c) flushes batched writes to
stable storage; it returns false when the fsync fails.  The I/O outcome is
an explicit argument of the model. -/
def RaftLogSync (log : RaftLog) (sync_ok : Bool) : Option RaftLog :=
  if sync_ok then some log else none

/-- Modelled from the spec: the persistence path of the consensus thread
appends an entry and syncs it, and "I/O errors from Append or Sync are fatal
to the node"; any failure PANICs (diagnostic banner, exit(1)) instead of
continuing. -/
def persistEntry (log : RaftLog) (e : RaftLogEntryRecord) (write_ok sync_ok : Bool) :
    PersistOutcome :=
  match RaftLogAppend log e write_ok with
  | none => PANIC
  | some appended =>
    match RaftLogSync appended sync_ok with
    | none => PANIC
    | some synced => .ok synced

/-! ### Snapshot pipe record (redisraft.h, SnapshotResult) -/

/-- SNAPSHOT_RESULT_MAGIC = 0x70616e73 (redisraft.h). -/
def SNAPSHOT_RESULT_MAGIC : Nat := 0x70616e73

/-- The record the snapshot child writes to the pipe (redisraft.h, struct
SnapshotResult): magic, success flag, num_entries, and three 256-byte
character arrays. -/
structure SnapshotResult where
  magic : Nat
  success : Nat
  num_entries : Nat
  rdb_filename : List Byte
  log_filename : List Byte
  err : List Byte
deriving DecidableEq, Repr

/-- The fixed shape of a SnapshotResult record: each of the three character
arrays is exactly 256 bytes (redisraft.h: char ...[256]). -/
def SnapshotResultWF (sr : SnapshotResult) : Prop :=
  sr.rdb_filename.length = 256 ∧ sr.log_filename.length = 256 ∧ sr.err.length = 256

/-- A byte string stored in a fixed-size n-byte character array: the string
truncated to n bytes and NUL-padded to exactly n bytes. -/
def fixedBuf (n : Nat) (s : List Byte) : List Byte :=
  (s ++ List.replicate n 0).take n

/-- Modelled from the spec: the snapshot child writes back a SnapshotResult
record with magic = 0x70616e73, the success flag, the num_entries carried
over, and the rdb/log file names and error string in the fixed 256-byte
arrays of the struct. -/
def mkSnapshotResult (success num_entries : Nat) (rdb log err : List Byte) :
    SnapshotResult :=
  { magic := SNAPSHOT_RESULT_MAGIC
    success := success
    num_entries := num_entries
    rdb_filename := fixedBuf 256 rdb
    log_filename := fixedBuf 256 log
    err := fixedBuf 256 err }

/-- Modelled from the spec: pollSnapshotStatus (snapshot.c) is declared in
redisraft.h but its body is not among the sources.  Per the spec the
consensus thread polls the pipe each tick and reads back one complete
fixed-size SnapshotResult record when available.  The pipe is modelled as
the sequence of records the child wrote. -/
def pollSnapshotStatus (pipe : List SnapshotResult) :
    Option (SnapshotResult × List SnapshotResult) :=
  match pipe with
  | [] => none
  | sr :: rest => some (sr, rest)

/-! ### Snapshot initiation and membership changes (RedisRaftCtx flags) -/

/-- The slice of the global RedisRaftCtx (redisraft.h) that the at-most-one
invariants are about: the snapshot_in_progress flag, together with ghost
counters for the number of snapshot child processes running and the number
of uncommitted membership changes in flight. -/
structure SnapCtx where
  snapshot_in_progress : Bool
  snapshots_running : Nat
  cfg_change_in_flight : Bool
  uncommitted_cfg_changes : Nat
deriving DecidableEq, Repr

/-- Modelled from the spec: initiateSnapshot (snapshot.c) is declared in
redisraft.h but its body is not among the sources.  Per the spec, "Only one
snapshot may be in progress; a second trigger while snapshot_in_progress is
true is deferred": when the flag is set the trigger returns RR_ERROR and
starts nothing; otherwise a snapshot child is spawned and the flag set. -/
def initiateSnapshot (s : SnapCtx) : SnapCtx × RRStatus :=
  if s.snapshot_in_progress then (s, .RR_ERROR)
  else
    ({ s with
        snapshot_in_progress := true
        snapshots_running := s.snapshots_running + 1 },
      .RR_OK)

/-- Modelled from the spec: when the in-progress snapshot completes (or is
cancelled), the consensus thread reaps the child and clears
snapshot_in_progress. -/
def snapshotDone (s : SnapCtx) : SnapCtx :=
  { s with
      snapshot_in_progress := false
      snapshots_running := s.snapshots_running - 1 }

/-- Modelled from the spec: "only one uncommitted membership change at a
time. A second AddNode/RemoveNode while one is in flight is rejected." -/
def proposeCfgChange (s : SnapCtx) : SnapCtx × RRStatus :=
  if s.cfg_change_in_flight then (s, .RR_ERROR)
  else
    ({ s with
        cfg_change_in_flight := true
        uncommitted_cfg_changes := s.uncommitted_cfg_changes + 1 },
      .RR_OK)

/-- Modelled from the spec: when the in-flight membership change entry
commits, it stops being uncommitted. -/
def cfgChangeCommitted (s : SnapCtx) : SnapCtx :=
  { s with
      cfg_change_in_flight := false
      uncommitted_cfg_changes := s.uncommitted_cfg_changes - 1 }

/-- The events that touch the snapshot and membership-change state. -/
inductive SnapEvent where
  | triggerSnapshot
  | finishSnapshot
  | proposeChange
  | commitChange
deriving DecidableEq, Repr

/-- One step of the consensus thread on the snapshot / membership-change
state. -/
def snapStep (s : SnapCtx) : SnapEvent → SnapCtx
  | .triggerSnapshot => (initiateSnapshot s).1
  | .finishSnapshot => snapshotDone s
  | .proposeChange => (proposeCfgChange s).1
  | .commitChange => cfgChangeCommitted s

/-- The at-most-one invariant: the snapshot_in_progress flag tracks whether
exactly one snapshot child runs, never more than one runs, and likewise at
most one uncommitted membership change is in flight. -/
def SnapInv (s : SnapCtx) : Prop :=
  (s.snapshot_in_progress = true ↔ s.snapshots_running = 1)
    ∧ s.snapshots_running ≤ 1
    ∧ (s.cfg_change_in_flight = true ↔ s.uncommitted_cfg_changes = 1)
    ∧ s.uncommitted_cfg_changes ≤ 1

instance (s : SnapCtx) : Decidable (SnapInv s) := by
  unfold SnapInv; infer_instance

/-! ### Address parsing (node.c interface declared in redisraft.h) -/

/-- Position of the last colon of a byte string, when one is present. -/
def lastColonIdx (s : List Byte) : Option Nat :=
  (List.range s.length).reverse.find? (fun i => s.getD i 0 == 58)

/-- Decimal port number parse: at least one digit, digits only. -/
def parseDecimal (s : List Byte) : Option Nat :=
  match s with
  | [] => none
  | ds =>
    ds.foldlM (fun acc d => if 48 ≤ d ∧ d ≤ 57 then some (acc * 10 + (d - 48)) else none) 0

/-- Modelled from the spec: NodeAddrParse (node.c) is declared in
redisraft.h but its body is not among the sources.  Per the spec a NodeAddr
is "a (host, port) pair where host is at most 255 bytes": the parser splits
host:port at the last colon, rejects a host part longer than 255 bytes
(which would not fit the 256-byte host buffer with its NUL terminator), and
accepts a decimal port up to 65535. -/
def NodeAddrParse (s : List Byte) : Option NodeAddr :=
  match lastColonIdx s with
  | none => none
  | some i =>
    if (s.take i).length > 255 then none
    else
      match parseDecimal (s.drop (i + 1)) with
      | none => none
      | some p => if p > 65535 then none else some { port := p, host := s.take i }

/-! ### Client command serialization (raft.c interface declared in redisraft.h) -/

/-- The four little-endian bytes of a 32-bit length field. -/
def u32ToBytes (n : Nat) : List Byte :=
  [n % 256, n / 256 % 256, n / 65536 % 256, n / 16777216 % 256]

/-- Read a 32-bit little-endian length field off the front of a byte
string. -/
def readU32 (bs : List Byte) : Option (Nat × List Byte) :=
  match bs with
  | b0 :: b1 :: b2 :: b3 :: rest => some (b0 + 256 * (b1 + 256 * (b2 + 256 * b3)), rest)
  | _ => none

/-- One serialized argument: its 32-bit length followed by its bytes. -/
def serializeArg (a : List Byte) : List Byte :=
  u32ToBytes a.length ++ a

/-- The concatenation of the serialized arguments. -/
def serializeArgs : List (List Byte) → List Byte
  | [] => []
  | a :: rest => serializeArg a ++ serializeArgs rest

/-- Modelled from the spec: RaftRedisCommandSerialize (raft.c) is declared
in redisraft.h but its body is not among the sources.  Per the spec it packs
a client command into a log entry payload from which the original argc and
argv can be recovered byte-for-byte: the payload carries argc followed by
the argc length-prefixed argument strings. -/
def RaftRedisCommandSerialize (cmd : RaftRedisCommand) : List Byte :=
  u32ToBytes cmd.argc ++ serializeArgs (cmd.argv.take cmd.argc)

/-- Read one length-prefixed argument off the front of a byte string. -/
def readArg (bs : List Byte) : Option (List Byte × List Byte) :=
  match readU32 bs with
  | none => none
  | some (len, rest) =>
    if len ≤ rest.length then some (rest.take len, rest.drop len) else none

/-- Read n length-prefixed arguments off the front of a byte string. -/
def readArgs : Nat → List Byte → Option (List (List Byte) × List Byte)
  | 0, bs => some ([], bs)
  | n + 1, bs =>
    match readArg bs with
    | none => none
    | some (a, rest) =>
      match readArgs n rest with
      | none => none
      | some (args, rest2) => some (a :: args, rest2)

/-- Modelled from the spec: RaftRedisCommandDeserialize (raft.c) is declared
in redisraft.h but its body is not among the sources.  It unpacks a log
entry payload back into a RaftRedisCommand: argc first, then argc
length-prefixed argument strings; a malformed payload is rejected. -/
def RaftRedisCommandDeserialize (bs : List Byte) : Option RaftRedisCommand :=
  match readU32 bs with
  | none => none
  | some (argc, rest) =>
    match readArgs argc rest with
    | none => none
    | some (args, _) => some { argc := argc, argv := args }

/-! ### Helper lemmas -/

/-- A 32-character identifier is stored as itself followed by the NUL
terminator. -/
theorem storeDbid_of_full (id : List Byte) (h : id.length = RAFT_DBID_LEN) :
    storeDbid id = id ++ [0] := by
  unfold storeDbid
  rw [← h, List.take_length]

/-- shouldReconnect holds exactly for idle, non-terminating peers. -/
theorem shouldReconnect_iff (n : Node) :
    shouldReconnect n = true ↔
      (n.state = NodeState.NODE_DISCONNECTED ∨ n.state = NodeState.NODE_CONNECT_ERROR)
        ∧ n.flags &&& NODE_TERMINATING = 0 := by
  unfold shouldReconnect nodeTerminating NODE_STATE_IDLE
  cases n.state <;> simp

/-- Folding logCountEntry adds the number of entries to both counters and
leaves the snapshot boundary alone. -/
theorem foldl_logCountEntry (es : List RaftLogEntryRecord) (log : RaftLog) :
    (es.foldl logCountEntry log).num_entries = log.num_entries + es.length
      ∧ (es.foldl logCountEntry log).index = log.index + es.length
      ∧ (es.foldl logCountEntry log).snapshot_last_idx = log.snapshot_last_idx := by
  induction es generalizing log with
  | nil => simp
  | cons e es ih =>
    rw [List.foldl_cons]
    obtain ⟨i1, i2, i3⟩ := ih (logCountEntry log e)
    rw [i1, i2, i3]
    refine ⟨?_, ?_, ?_⟩ <;> simp [logCountEntry] <;> try omega

/-! ### The claims -/

/-- C7: when the user does not override an option, ConfigInit yields
raft-interval 100 ms, request-timeout 250 ms, election-timeout 500 ms,
reconnect-interval 100 ms and max-log-entries 10000, i.e. exactly the
REDIS_RAFT_DEFAULT_* values of redisraft.h. -/
theorem configInit_defaults :
    ConfigInit.raft_interval = 100 ∧ ConfigInit.request_timeout = 250
      ∧ ConfigInit.election_timeout = 500 ∧ ConfigInit.reconnect_interval = 100
      ∧ ConfigInit.max_log_entries = 10000
      ∧ ConfigInit.raft_interval = REDIS_RAFT_DEFAULT_INTERVAL
      ∧ ConfigInit.request_timeout = REDIS_RAFT_DEFAULT_REQUEST_TIMEOUT
      ∧ ConfigInit.election_timeout = REDIS_RAFT_DEFAULT_ELECTION_TIMEOUT
      ∧ ConfigInit.reconnect_interval = REDIS_RAFT_DEFAULT_RECONNECT_INTERVAL
      ∧ ConfigInit.max_log_entries = REDIS_RAFT_DEFAULT_MAX_LOG_ENTRIES := by
  decide

/-- C5: every request is exactly one of the ten tagged variants: RaftReqType
has exactly ten tags, numbered injectively from 1 through 10, every request
payload belongs to exactly one tag, and every RaftReq optionally carries a
blocked-client handle (some handle or none). -/
theorem raftReq_ten_tagged_variants :
    Fintype.card RaftReqType = 10
      ∧ (∀ t : RaftReqType, 1 ≤ t.toNat ∧ t.toNat ≤ 10)
      ∧ Function.Injective RaftReqType.toNat
      ∧ (∀ d : RaftReqData, ∃! t : RaftReqType, d.rtype = t)
      ∧ (∀ r : RaftReq, r.client = none ∨ ∃ c : Nat, r.client = some c) := by
  refine ⟨by decide, by decide, by decide,
    fun d => ⟨d.rtype, rfl, fun t ht => ht.symm⟩, fun r => ?_⟩
  cases h : r.client with
  | none => exact Or.inl rfl
  | some c => exact Or.inr ⟨c, rfl⟩

/-- C6: on every firing of the reconnect timer, a reconnect is attempted for
a peer iff its connection state is Disconnected or ConnectError (the states
NODE_STATE_IDLE holds for, and for no other of the five states) and its
terminating flag is unset; peers in Resolving, Connecting or Connected state
and terminating peers are never reconnected. -/
theorem handleNodeStates_reconnect_iff :
    (∀ s : NodeState, NODE_STATE_IDLE s = true ↔
        s = NodeState.NODE_DISCONNECTED ∨ s = NodeState.NODE_CONNECT_ERROR)
      ∧ (∀ (nodes : List Node) (n : Node),
          n ∈ HandleNodeStates nodes ↔
            n ∈ nodes
              ∧ (n.state = NodeState.NODE_DISCONNECTED
                  ∨ n.state = NodeState.NODE_CONNECT_ERROR)
              ∧ n.flags &&& NODE_TERMINATING = 0) := by
  refine ⟨by decide, fun nodes n => ?_⟩
  rw [HandleNodeStates, List.mem_filter, shouldReconnect_iff]

/-- C10: the dbid buffers of RaftSnapshotInfo and RaftLog hold
RAFT_DBID_LEN+1 = 33 bytes, so every operation that stores the 32-character
cluster identifier (RaftLogCreate, snapshot load) keeps it untruncated and
NUL-terminated within the buffer. -/
theorem dbid_fits_buffer (si : RaftSnapshotInfo) (id : List Byte) (t i : Nat)
    (h : id.length = RAFT_DBID_LEN) :
    DBID_BUFSIZE = RAFT_DBID_LEN + 1 ∧ DBID_BUFSIZE = 33
      ∧ (RaftLogCreate id t i).dbid = id ++ [0]
      ∧ (RaftLogCreate id t i).dbid.length = DBID_BUFSIZE
      ∧ (si.setDbid id).dbid = id ++ [0]
      ∧ (si.setDbid id).dbid.length = DBID_BUFSIZE
      ∧ (si.setDbid id).dbid.getLast? = some 0 := by
  have hs : storeDbid id = id ++ [0] := storeDbid_of_full id h
  refine ⟨rfl, rfl, ?_, ?_, ?_, ?_, ?_⟩
  · simpa [RaftLogCreate] using hs
  · simp [RaftLogCreate, hs, h, DBID_BUFSIZE, RAFT_DBID_LEN]
  · simpa [RaftSnapshotInfo.setDbid] using hs
  · simp [RaftSnapshotInfo.setDbid, hs, h, DBID_BUFSIZE, RAFT_DBID_LEN]
  · simp [RaftSnapshotInfo.setDbid, hs]

/-- C10 witness: a concrete 32-character identifier is stored untruncated
and NUL-terminated. -/
theorem dbid_fits_buffer_witness :
    (RedisRaft.RaftLogCreate (List.replicate 32 97) 1 0).dbid
      = List.replicate 32 97 ++ [0] :=
  (dbid_fits_buffer ⟨false, [], 0, 0, []⟩ (List.replicate 32 97) 1 0 (by decide)).2.2.1

/-- C3: for every RaftLog handle returned by RaftLogOpen after recovery, the
header's snapshot_last_idx plus the number of entries loaded equals the
log's current last index. -/
theorem raftLogOpen_boundary_invariant (f : RaftLogFile) :
    (RaftLogOpen f).snapshot_last_idx + (RaftLogOpen f).num_entries
      = (RaftLogOpen f).index := by
  unfold RaftLogOpen
  obtain ⟨i1, i2, i3⟩ := foldl_logCountEntry f.entries
    { version := f.version
      dbid := f.dbid
      num_entries := 0
      snapshot_last_term := f.snapshot_last_term
      snapshot_last_idx := f.snapshot_last_idx
      vote := -1
      term := f.snapshot_last_term
      index := f.snapshot_last_idx }
  rw [i1, i2, i3]
  simp

/-- C4: whenever RaftLogAppend or RaftLogSync fails with an I/O error on the
persistence path, the node terminates the process through PANIC (the
diagnostic banner and exit code 1) and never silently proceeds with an ok
outcome. -/
theorem persist_failure_panics (log : RaftLog) (e : RaftLogEntryRecord)
    (w s : Bool) (h : w = false ∨ s = false) :
    persistEntry log e w s = PANIC
      ∧ persistEntry log e w s = PersistOutcome.panicked RAFT_PANIC_BANNER 1
      ∧ ∀ l' : RaftLog, persistEntry log e w s ≠ PersistOutcome.ok l' := by
  have hp : persistEntry log e w s = PANIC := by
    rcases h with h | h <;> subst h
    · simp [persistEntry, RaftLogAppend]
    · cases w <;> simp [persistEntry, RaftLogAppend, RaftLogSync]
  refine ⟨hp, hp.trans rfl, fun l' hc => ?_⟩
  rw [hp] at hc
  simp [PANIC] at hc

/-- C4 witness: a failed append on a concrete log PANICs. -/
theorem persist_failure_panics_witness :
    persistEntry (RaftLogCreate [] 0 0) ⟨1, 0, []⟩ false true = PANIC :=
  (persist_failure_panics (RaftLogCreate [] 0 0) ⟨1, 0, []⟩ false true (Or.inl rfl)).1

/-- C2: under the at-most-one invariant, every step keeps at most one
snapshot child running and at most one uncommitted membership change in
flight, and while snapshot_in_progress is true initiateSnapshot starts no
second snapshot: it leaves the state unchanged and reports RR_ERROR (the
trigger is deferred). -/
theorem snapshot_at_most_one (s : SnapCtx) (e : SnapEvent) (h : SnapInv s) :
    SnapInv (snapStep s e)
      ∧ (snapStep s e).snapshots_running ≤ 1
      ∧ (snapStep s e).uncommitted_cfg_changes ≤ 1
      ∧ (s.snapshot_in_progress = true →
          (initiateSnapshot s).1 = s ∧ (initiateSnapshot s).2 = RRStatus.RR_ERROR) := by
  obtain ⟨h1, h2, h3, h4⟩ := h
  have main : SnapInv (snapStep s e) := by
    cases e <;> cases hf : s.snapshot_in_progress <;> cases hc : s.cfg_change_in_flight <;>
        simp [hf, hc] at h1 h3 <;>
      simp [snapStep, initiateSnapshot, snapshotDone, proposeCfgChange,
        cfgChangeCommitted, SnapInv, hf, hc] <;>
      omega
  have defer : s.snapshot_in_progress = true →
      (initiateSnapshot s).1 = s ∧ (initiateSnapshot s).2 = RRStatus.RR_ERROR := by
    intro hf
    simp [initiateSnapshot, hf]
  exact ⟨main, main.2.1, main.2.2.2, defer⟩

/-- C2 witness: from the quiescent state, triggering a snapshot keeps the
invariant, and with a snapshot in progress a second trigger is deferred with
RR_ERROR. -/
theorem snapshot_at_most_one_witness :
    SnapInv (snapStep ⟨true, 1, false, 0⟩ SnapEvent.triggerSnapshot)
      ∧ (initiateSnapshot ⟨true, 1, false, 0⟩).1 = ⟨true, 1, false, 0⟩
      ∧ (initiateSnapshot ⟨true, 1, false, 0⟩).2 = RRStatus.RR_ERROR := by
  have h := snapshot_at_most_one ⟨true, 1, false, 0⟩ SnapEvent.triggerSnapshot (by decide)
  exact ⟨h.1, (h.2.2.2 rfl).1, (h.2.2.2 rfl).2⟩

/-- A fixed-size buffer holds exactly n bytes. -/
theorem fixedBuf_length (n : Nat) (s : List Byte) : (fixedBuf n s).length = n := by
  unfold fixedBuf
  simp

/-- C8: the record the snapshot child writes to the pipe is a fixed-size
SnapshotResult whose magic equals 0x70616e73, followed by the success flag,
the num_entries count, and three 256-byte character arrays; every record
pollSnapshotStatus reads back from a pipe of child-written records has this
exact shape and magic value. -/
theorem snapshotResult_shape :
    SNAPSHOT_RESULT_MAGIC = 0x70616e73
      ∧ (∀ (success num_entries : Nat) (rdb log err : List Byte),
          (mkSnapshotResult success num_entries rdb log err).magic = SNAPSHOT_RESULT_MAGIC
            ∧ (mkSnapshotResult success num_entries rdb log err).success = success
            ∧ (mkSnapshotResult success num_entries rdb log err).num_entries = num_entries
            ∧ SnapshotResultWF (mkSnapshotResult success num_entries rdb log err))
      ∧ (∀ (pipe : List SnapshotResult),
          (∀ sr ∈ pipe, ∃ a b : Nat, ∃ r l e : List Byte, sr = mkSnapshotResult a b r l e) →
          ∀ (sr : SnapshotResult) (rest : List SnapshotResult),
            pollSnapshotStatus pipe = some (sr, rest) →
              sr.magic = 0x70616e73 ∧ SnapshotResultWF sr) := by
  have hmk : ∀ (a b : Nat) (r l e : List Byte),
      (mkSnapshotResult a b r l e).magic = SNAPSHOT_RESULT_MAGIC
        ∧ (mkSnapshotResult a b r l e).success = a
        ∧ (mkSnapshotResult a b r l e).num_entries = b
        ∧ SnapshotResultWF (mkSnapshotResult a b r l e) := by
    intro a b r l e
    exact ⟨rfl, rfl, rfl, fixedBuf_length 256 r, fixedBuf_length 256 l, fixedBuf_length 256 e⟩
  refine ⟨rfl, hmk, fun pipe hpipe sr rest hpoll => ?_⟩
  cases pipe with
  | nil => cases hpoll
  | cons hd tl =>
    have hhd : hd = sr := by
      simpa [pollSnapshotStatus] using congrArg (fun o => o.map Prod.fst) hpoll
    obtain ⟨a, b, r, l, e, hw⟩ := hpipe hd (by simp)
    subst hhd
    rw [hw]
    exact ⟨(hmk a b r l e).1, (hmk a b r l e).2.2.2⟩

/-- C9: every NodeAddr produced by NodeAddrParse has a host of at most 255
bytes, fitting the 256-byte host buffer with its NUL terminator, and any
input whose host part (the text before the last colon) exceeds 255 bytes is
rejected. -/
theorem nodeAddrParse_host_bound :
    (∀ (s : List Byte) (a : NodeAddr), NodeAddrParse s = some a →
        a.host.length ≤ 255 ∧ a.host.length + 1 ≤ NODE_ADDR_HOST_BUFSIZE)
      ∧ (∀ (s : List Byte) (i : Nat), lastColonIdx s = some i →
          255 < (s.take i).length → NodeAddrParse s = none) := by
  constructor
  · intro s a h
    unfold NodeAddrParse at h
    split at h
    · exact Option.noConfusion h
    · rename_i i hcol2
      split at h
      · exact Option.noConfusion h
      · rename_i hl
        split at h
        · exact Option.noConfusion h
        · rename_i p hp2
          split at h
          · exact Option.noConfusion h
          · rename_i hb
            rw [Option.some.injEq] at h
            subst h
            show (s.take i).length ≤ 255 ∧ (s.take i).length + 1 ≤ 256
            exact ⟨by omega, by omega⟩
  · intro s i hcol hlen
    unfold NodeAddrParse
    simp only [hcol]
    rw [if_pos hlen]

set_option maxRecDepth 8000 in
/-- C9 witness: a concrete address parses with its host within the bound,
and a concrete input with a 256-byte host part is rejected. -/
theorem nodeAddrParse_host_bound_witness :
    (NodeAddrParse [104, 58, 49] = some ⟨1, [104]⟩
      → ({ port := 1, host := [104] } : NodeAddr).host.length ≤ 255)
      ∧ NodeAddrParse (List.replicate 256 104 ++ [58, 49]) = none := by
  constructor
  · exact fun h => (nodeAddrParse_host_bound.1 [104, 58, 49] ⟨1, [104]⟩ h).1
  · exact nodeAddrParse_host_bound.2 (List.replicate 256 104 ++ [58, 49]) 256
      (by decide) (by decide)

/-- Reading a 32-bit length field off the bytes that encode it recovers the
value. -/
theorem readU32_u32ToBytes (n : Nat) (rest : List Byte) (h : n < 4294967296) :
    readU32 (u32ToBytes n ++ rest) = some (n, rest) := by
  simp only [u32ToBytes, List.cons_append, List.nil_append, readU32]
  have hn : n % 256 + 256 * (n / 256 % 256 + 256 * (n / 65536 % 256 + 256 * (n / 16777216 % 256)))
      = n := by omega
  rw [hn]

/-- Reading one length-prefixed argument off its encoding recovers the
argument. -/
theorem readArg_serializeArg (a : List Byte) (rest : List Byte)
    (h : a.length < 4294967296) :
    readArg (serializeArg a ++ rest) = some (a, rest) := by
  unfold serializeArg readArg
  rw [List.append_assoc]
  simp only [readU32_u32ToBytes a.length (a ++ rest) h]
  have hle : a.length ≤ (a ++ rest).length := by
    simp
  rw [if_pos hle, List.take_left, List.drop_left]

/-- Reading back the concatenation of serialized arguments recovers the
argument list. -/
theorem readArgs_serializeArgs (args : List (List Byte)) (rest : List Byte)
    (h : ∀ a ∈ args, a.length < 4294967296) :
    readArgs args.length (serializeArgs args ++ rest) = some (args, rest) := by
  induction args with
  | nil => simp [serializeArgs, readArgs]
  | cons a as ih =>
    show readArgs (as.length + 1) ((serializeArg a ++ serializeArgs as) ++ rest)
      = some (a :: as, rest)
    rw [List.append_assoc]
    unfold readArgs
    simp only [readArg_serializeArg a (serializeArgs as ++ rest) (h a (by simp))]
    simp only [ih (fun x hx => h x (by simp [hx]))]

/-- C1: serializing any client command into a log entry payload with
RaftRedisCommandSerialize and deserializing the payload with
RaftRedisCommandDeserialize yields the original argc and argv
byte-for-byte (for well-formed commands whose argc matches argv and whose
counts fit the 32-bit length fields). -/
theorem raftRedisCommand_round_trip (cmd : RaftRedisCommand)
    (hc : cmd.argc = cmd.argv.length)
    (hargc : cmd.argc < 4294967296)
    (hargs : ∀ a ∈ cmd.argv, a.length < 4294967296) :
    RaftRedisCommandDeserialize (RaftRedisCommandSerialize cmd) = some cmd := by
  obtain ⟨argc, argv⟩ := cmd
  simp only at hc hargc hargs
  subst hc
  unfold RaftRedisCommandSerialize RaftRedisCommandDeserialize
  simp only [List.take_length]
  simp only [readU32_u32ToBytes argv.length (serializeArgs argv) hargc]
  rw [← List.append_nil (serializeArgs argv)]
  simp only [readArgs_serializeArgs argv [] hargs]

/-- C1 witness: the command SET k v round-trips through a log entry payload. -/
theorem raftRedisCommand_round_trip_witness :
    RaftRedisCommandDeserialize
        (RaftRedisCommandSerialize ⟨3, [[83, 69, 84], [107], [118]]⟩)
      = some ⟨3, [[83, 69, 84], [107], [118]]⟩ :=
  raftRedisCommand_round_trip ⟨3, [[83, 69, 84], [107], [118]]⟩
    (by decide) (by decide) (by decide)

end RedisRaft
